import Mathlib

/-!
Verification of the ai-hedge-fund signal-generation pipeline and model-catalog
filter, shallowly embedded from `src/agents/example_agent.py` and
`app/backend/routes/language_models.py`.  Python floats are modelled as `ℚ`,
Python ints as `ℤ`, optional snapshot fields as `Option ℚ`, and insertion-order
dictionaries as association lists.
-/

/-- JSON values, as produced by the standard-library JSON decoder used in
`validate_with_llm`.  Numbers are modelled as rationals. -/
inductive Json where
  | null : Json
  | bool (b : Bool) : Json
  | num (q : ℚ) : Json
  | str (s : String) : Json
  | arr (xs : List Json) : Json
  | obj (kvs : List (String × Json)) : Json

/-- Drops leading JSON whitespace. -/
def skipWs : List Char → List Char
  | [] => []
  | c :: cs => if c = ' ' ∨ c = '\n' ∨ c = '\t' ∨ c = '\r' then skipWs cs else c :: cs

/-- Reads the characters of a JSON string up to the closing quote
(escape sequences are not needed for the inputs considered here). -/
def takeStringChars : List Char → Option (List Char × List Char)
  | [] => none
  | c :: cs =>
    if c = '"' then some ([], cs)
    else (takeStringChars cs).map (fun p => (c :: p.1, p.2))

/-- Accumulates a decimal digit string into a natural number. -/
def digitsToNat : List Char → ℕ → ℕ
  | [], acc => acc
  | c :: cs, acc => digitsToNat cs (acc * 10 + (c.toNat - Char.toNat '0'))

/-- Parses a JSON number (optional minus sign, integer part, optional
fractional part) as a rational. -/
def parseNumber (cs : List Char) : Option (Json × List Char) :=
  let sgn : Bool × List Char :=
    match cs with
    | '-' :: rest => (true, rest)
    | _ => (false, cs)
  let ds := sgn.2.takeWhile Char.isDigit
  let rest1 := sgn.2.dropWhile Char.isDigit
  if ds.isEmpty then none
  else
    let ip : ℚ := (digitsToNat ds 0 : ℚ)
    let qr : ℚ × List Char :=
      match rest1 with
      | '.' :: rest =>
        let fs := rest.takeWhile Char.isDigit
        if fs.isEmpty then (ip, rest1)
        else (ip + (digitsToNat fs 0 : ℚ) / ((10 : ℚ) ^ fs.length), rest.dropWhile Char.isDigit)
      | _ => (ip, rest1)
    some (.num (if sgn.1 then -qr.1 else qr.1), qr.2)

mutual

/-- Parses one JSON value; the fuel argument bounds the nesting depth. -/
def parseValue : ℕ → List Char → Option (Json × List Char)
  | 0, _ => none
  | Nat.succ fuel, cs =>
    match skipWs cs with
    | 'n' :: 'u' :: 'l' :: 'l' :: rest => some (.null, rest)
    | 't' :: 'r' :: 'u' :: 'e' :: rest => some (.bool true, rest)
    | 'f' :: 'a' :: 'l' :: 's' :: 'e' :: rest => some (.bool false, rest)
    | '"' :: rest => (takeStringChars rest).map (fun p => (.str (String.mk p.1), p.2))
    | '[' :: rest =>
      match skipWs rest with
      | ']' :: rest2 => some (.arr [], rest2)
      | rest2 => (parseItems fuel rest2).map (fun p => (.arr p.1, p.2))
    | '\x7b' :: rest =>
      match skipWs rest with
      | '\x7d' :: rest2 => some (.obj [], rest2)
      | rest2 => (parseMembers fuel rest2).map (fun p => (.obj p.1, p.2))
    | rest => parseNumber rest

/-- Parses the comma-separated items of a non-empty JSON array. -/
def parseItems : ℕ → List Char → Option (List Json × List Char)
  | 0, _ => none
  | Nat.succ fuel, cs =>
    match parseValue fuel cs with
    | none => none
    | some (v, rest) =>
      match skipWs rest with
      | ',' :: rest2 => (parseItems fuel rest2).map (fun p => (v :: p.1, p.2))
      | ']' :: rest2 => some ([v], rest2)
      | _ => none

/-- Parses the comma-separated members of a non-empty JSON object. -/
def parseMembers : ℕ → List Char → Option (List (String × Json) × List Char)
  | 0, _ => none
  | Nat.succ fuel, cs =>
    match skipWs cs with
    | '"' :: rest =>
      match takeStringChars rest with
      | none => none
      | some (key, rest2) =>
        match skipWs rest2 with
        | ':' :: rest3 =>
          match parseValue fuel rest3 with
          | none => none
          | some (v, rest4) =>
            match skipWs rest4 with
            | ',' :: rest5 => (parseMembers fuel rest5).map (fun p => ((String.mk key, v) :: p.1, p.2))
            | '\x7d' :: rest5 => some ([(String.mk key, v)], rest5)
            | _ => none
        | _ => none
    | _ => none

end

/-- Models the standard library call `json.loads`: parses the whole text as a
single JSON value, failing (like the raised `JSONDecodeError`) on any input
that is not valid JSON. -/
def json_loads (s : String) : Option Json :=
  match parseValue (s.length + 1) s.toList with
  | some (v, rest) => if (skipWs rest).isEmpty then some v else none
  | none => none

/-- Point-in-time record of the financial ratios the rubric reads
(`FinancialMetrics` fields accessed by `example_agent`); each field may be
absent (`None` in Python). -/
structure MetricsSnapshot where
  return_on_equity : Option ℚ
  debt_to_equity : Option ℚ
  revenue_growth : Option ℚ
  earnings_growth : Option ℚ
deriving DecidableEq

/-- One line item returned by `search_line_items`; the scorers receive the
list but never read it. -/
structure LineItemSet where
  name : String
  value : ℚ
deriving DecidableEq

/-- Result dictionary of the two rubric scorers:
`\x7b"score": ..., "max_score": ..., "reasoning": ...\x7d`, with the
insertion-ordered reasoning dictionary as an association list. -/
structure ScoreBreakdown where
  score : ℤ
  max_score : ℤ
  reasoning : List (String × String)
deriving DecidableEq

/-- Python truthiness of an optional float: `None` and `0.0` are falsy. -/
def pyTruthy : Option ℚ → Bool
  | none => false
  | some x => decide (x ≠ 0)

/-- Translation of `analyze_core_metrics`: scores ROE (weight 3) and
debt-to-equity (weight 2) of the latest snapshot, skipping falsy fields. -/
def analyze_core_metrics (metrics : List MetricsSnapshot)
    (line_items : List LineItemSet) : ScoreBreakdown :=
  let score : ℤ := 0
  let max_score : ℤ := 0
  let reasoning : List (String × String) := []
  match metrics with
  | [] => { score := score, max_score := max_score, reasoning := reasoning }
  | latest :: _ =>
    let s1 : ℤ × ℤ × List (String × String) :=
      match latest.return_on_equity with
      | some roe =>
        if roe = 0 then (score, max_score, reasoning)
        else if roe > 0.15 then
          (score + 3, max_score + 3, reasoning ++ [("roe", "우수한 ROE (15% 이상)")])
        else if roe > 0.10 then
          (score + 2, max_score + 3, reasoning ++ [("roe", "양호한 ROE (10-15%)")])
        else if roe > 0.05 then
          (score + 1, max_score + 3, reasoning ++ [("roe", "보통 ROE (5-10%)")])
        else (score, max_score + 3, reasoning ++ [("roe", "낮은 ROE (5% 미만)")])
      | none => (score, max_score, reasoning)
    let s2 : ℤ × ℤ × List (String × String) :=
      match latest.debt_to_equity with
      | some dte =>
        if dte = 0 then s1
        else if dte < 0.3 then
          (s1.1 + 2, s1.2.1 + 2, s1.2.2 ++ [("debt", "보수적 부채비율 (30% 미만)")])
        else if dte < 0.5 then
          (s1.1 + 1, s1.2.1 + 2, s1.2.2 ++ [("debt", "적정 부채비율 (30-50%)")])
        else (s1.1, s1.2.1 + 2, s1.2.2 ++ [("debt", "높은 부채비율 (50% 이상)")])
      | none => s1
    { score := s2.1, max_score := s2.2.1, reasoning := s2.2.2 }

/-- Translation of `perform_advanced_analysis`: scores revenue growth
(weight 3) and earnings growth (weight 2) of the current snapshot; requires
at least two snapshots, and binds but never reads the previous one. -/
def perform_advanced_analysis (metrics : List MetricsSnapshot)
    (line_items : List LineItemSet) : ScoreBreakdown :=
  let score : ℤ := 0
  let max_score : ℤ := 0
  let reasoning : List (String × String) := []
  match metrics with
  | current :: _previous :: _ =>
    let s1 : ℤ × ℤ × List (String × String) :=
      match current.revenue_growth with
      | some rg =>
        if rg = 0 then (score, max_score, reasoning)
        else if rg > 0.20 then
          (score + 3, max_score + 3, reasoning ++ [("revenue_growth", "높은 매출 성장 (20% 이상)")])
        else if rg > 0.10 then
          (score + 2, max_score + 3, reasoning ++ [("revenue_growth", "양호한 매출 성장 (10-20%)")])
        else if rg > 0.05 then
          (score + 1, max_score + 3, reasoning ++ [("revenue_growth", "보통 매출 성장 (5-10%)")])
        else (score, max_score + 3, reasoning ++ [("revenue_growth", "낮은 매출 성장 (5% 미만)")])
      | none => (score, max_score, reasoning)
    let s2 : ℤ × ℤ × List (String × String) :=
      match current.earnings_growth with
      | some eg =>
        if eg = 0 then s1
        else if eg > 0.25 then
          (s1.1 + 2, s1.2.1 + 2, s1.2.2 ++ [("earnings_growth", "높은 이익 성장 (25% 이상)")])
        else if eg > 0.15 then
          (s1.1 + 1, s1.2.1 + 2, s1.2.2 ++ [("earnings_growth", "양호한 이익 성장 (15-25%)")])
        else (s1.1, s1.2.1 + 2, s1.2.2 ++ [("earnings_growth", "보통 이익 성장 (15% 미만)")])
      | none => s1
    { score := s2.1, max_score := s2.2.1, reasoning := s2.2.2 }
  | _ => { score := score, max_score := max_score, reasoning := reasoning }

/-- Translation of `calculate_comprehensive_score`: normalized percentage of
achieved points over achievable points, `0` when nothing was achievable. -/
def calculate_comprehensive_score (core_analysis advanced_analysis : ScoreBreakdown) : ℚ :=
  let total_score := core_analysis.score + advanced_analysis.score
  let max_possible_score := core_analysis.max_score + advanced_analysis.max_score
  if max_possible_score = 0 then 0
  else ((total_score : ℚ) / (max_possible_score : ℚ)) * 100

/-- Signal kinds of `ExampleAgentSignal`. -/
inductive Signal where
  | bullish
  | bearish
  | neutral
deriving DecidableEq

/-- Models the Python format specifier `:.1f`: the rational rendered to one
decimal place. -/
def fmt1 (q : ℚ) : String :=
  let n : ℤ := round (q * 10)
  let sign := if n < 0 then "-" else ""
  sign ++ toString (n.natAbs / 10) ++ "." ++ toString (n.natAbs % 10)

/-- Translation of `generate_signal`: threshold classification of the
comprehensive score; `market_cap` is accepted but never read. -/
def generate_signal (comprehensive_score : ℚ) (market_cap : Option ℚ) :
    Signal × ℚ × String :=
  if comprehensive_score ≥ 80 then
    (Signal.bullish, comprehensive_score,
      "종합 점수 " ++ fmt1 comprehensive_score ++ "%로 매우 우수한 투자 대상")
  else if comprehensive_score ≥ 60 then
    (Signal.bullish, comprehensive_score,
      "종합 점수 " ++ fmt1 comprehensive_score ++ "%로 양호한 투자 대상")
  else if comprehensive_score ≥ 40 then
    (Signal.neutral, 50,
      "종합 점수 " ++ fmt1 comprehensive_score ++ "%로 중립적인 투자 대상")
  else
    (Signal.bearish, 100 - comprehensive_score,
      "종합 점수 " ++ fmt1 comprehensive_score ++ "%로 투자에 주의가 필요한 대상")

/-- Outcome of the external `call_llm` collaborator: either it raised, or it
returned a response text. -/
inductive CallOutcome where
  | raised
  | returned (text : String)
deriving DecidableEq

/-- Translation of `validate_with_llm`: the whole body runs under
`try/except`, so a raised call or a failed `json.loads` falls back to the
deterministic `signals`; a successfully parsed response is returned as is. -/
def validate_with_llm (signals : Json) (call_result : CallOutcome) : Json :=
  match call_result with
  | .raised => signals
  | .returned text =>
    match json_loads text with
    | some parsed_result => parsed_result
    | none => signals

/-- Entry of the static model catalog returned by `get_models_list`, reduced
to the fields the route reads. -/
structure ModelDescriptor where
  provider : String
  display_name : String
  model_name : String
deriving DecidableEq

/-- Fixed provider-name to credential-identifier table of
`language_models.py`. -/
def PROVIDER_TO_API_KEY : List (String × String) :=
  [("OpenAI", "OPENAI_API_KEY"),
   ("Anthropic", "ANTHROPIC_API_KEY"),
   ("Google", "GOOGLE_API_KEY"),
   ("Groq", "GROQ_API_KEY"),
   ("xAI", "XAI_API_KEY"),
   ("DeepSeek", "DEEPSEEK_API_KEY"),
   ("GigaChat", "GIGACHAT_API_KEY"),
   ("OpenRouter", "OPENROUTER_API_KEY"),
   ("Azure OpenAI", "AZURE_OPENAI_API_KEY")]

/-- Models the dictionary access `PROVIDER_TO_API_KEY.get(provider)`. -/
def providerToApiKey (provider : String) : Option String :=
  (PROVIDER_TO_API_KEY.find? (fun kv => kv.1 == provider)).map (fun kv => kv.2)

/-- Translation of the filtering loop of `get_language_models`: keeps the
catalog entries whose provider has a configured credential, then appends the
probed Ollama models.  The catalog, credential set and probe result come from
external collaborators and are taken as inputs. -/
def get_language_models (all_models : List ModelDescriptor)
    (available_providers : List String)
    (ollama_models : List ModelDescriptor) : List ModelDescriptor :=
  let filtered_models := all_models.foldl
    (fun acc model =>
      match providerToApiKey model.provider with
      | some api_key_name =>
        if available_providers.contains api_key_name then acc ++ [model] else acc
      | none => acc)
    []
  filtered_models ++ ollama_models

/-- Declarative credential predicate of the spec (§4.6): a catalog entry is
selected exactly when the fixed table maps its provider to a credential
present in the set. -/
def credentialSelected (m : ModelDescriptor) (available_providers : List String) : Bool :=
  match providerToApiKey m.provider with
  | some k => available_providers.contains k
  | none => false

/-- ROE rubric tiers (weight 3) as a pure function, for stating the
per-field decomposition of `analyze_core_metrics`. -/
def roeTier (x : ℚ) : ℤ × String :=
  if x > 0.15 then (3, "우수한 ROE (15% 이상)")
  else if x > 0.10 then (2, "양호한 ROE (10-15%)")
  else if x > 0.05 then (1, "보통 ROE (5-10%)")
  else (0, "낮은 ROE (5% 미만)")

/-- Debt-to-equity rubric tiers (weight 2). -/
def dteTier (x : ℚ) : ℤ × String :=
  if x < 0.3 then (2, "보수적 부채비율 (30% 미만)")
  else if x < 0.5 then (1, "적정 부채비율 (30-50%)")
  else (0, "높은 부채비율 (50% 이상)")

/-- Revenue-growth rubric tiers (weight 3). -/
def revTier (x : ℚ) : ℤ × String :=
  if x > 0.20 then (3, "높은 매출 성장 (20% 이상)")
  else if x > 0.10 then (2, "양호한 매출 성장 (10-20%)")
  else if x > 0.05 then (1, "보통 매출 성장 (5-10%)")
  else (0, "낮은 매출 성장 (5% 미만)")

/-- Earnings-growth rubric tiers (weight 2). -/
def earnTier (x : ℚ) : ℤ × String :=
  if x > 0.25 then (2, "높은 이익 성장 (25% 이상)")
  else if x > 0.15 then (1, "양호한 이익 성장 (15-25%)")
  else (0, "보통 이익 성장 (15% 미만)")

/-- Contribution of one rubric field per the spec (§4.1): a falsy field
contributes nothing and writes no reasoning entry; a truthy field adds its
tier points, raises the maximum by the full weight, and writes exactly one
reasoning entry. -/
def fieldContribution (v : Option ℚ) (weight : ℤ) (key : String)
    (tier : ℚ → ℤ × String) : ℤ × ℤ × List (String × String) :=
  match v with
  | none => (0, 0, [])
  | some x => if x = 0 then (0, 0, []) else ((tier x).1, weight, [(key, (tier x).2)])

/-- Modelled from the spec (§4.5): the expected structured review shape —
per ticker an object with exactly the keys `signal` (one of the three kinds),
`confidence` (0-100) and `reasoning` (text).  The shape validation itself is
absent from the source. -/
def entryHasExpectedShape : Json → Bool
  | .obj [("signal", .str sig), ("confidence", .num c), ("reasoning", .str _)] =>
    (sig == "bullish" || sig == "bearish" || sig == "neutral")
      && decide (0 ≤ c) && decide (c ≤ 100)
  | _ => false

/-- Modelled from the spec (§4.5): a review response of the expected shape is
an object whose every value is a well-shaped per-ticker entry. -/
def hasExpectedShape : Json → Bool
  | .obj entries => entries.all (fun kv => entryHasExpectedShape kv.2)
  | _ => false

/-- Concrete deterministic signal map (one bullish ticker) used in theorems
that evaluate `validate_with_llm` at explicit inputs. -/
def exampleSignals : Json :=
  .obj [("AAPL", .obj [("signal", .str "bullish"), ("confidence", .num 100),
                       ("reasoning", .str "strong")])]

theorem analyze_core_metrics_decomp (s : MetricsSnapshot)
    (rest : List MetricsSnapshot) (li : List LineItemSet) :
    analyze_core_metrics (s :: rest) li =
      { score := (fieldContribution s.return_on_equity 3 "roe" roeTier).1 +
                 (fieldContribution s.debt_to_equity 2 "debt" dteTier).1,
        max_score := (fieldContribution s.return_on_equity 3 "roe" roeTier).2.1 +
                     (fieldContribution s.debt_to_equity 2 "debt" dteTier).2.1,
        reasoning := (fieldContribution s.return_on_equity 3 "roe" roeTier).2.2 ++
                     (fieldContribution s.debt_to_equity 2 "debt" dteTier).2.2 } := by
  rcases s with ⟨roe, dte, rg, eg⟩
  rcases roe with _ | x <;> rcases dte with _ | y <;>
    simp only [analyze_core_metrics, fieldContribution, roeTier, dteTier] <;>
    (try split_ifs) <;> simp_all

theorem perform_advanced_analysis_decomp (c p : MetricsSnapshot)
    (rest : List MetricsSnapshot) (li : List LineItemSet) :
    perform_advanced_analysis (c :: p :: rest) li =
      { score := (fieldContribution c.revenue_growth 3 "revenue_growth" revTier).1 +
                 (fieldContribution c.earnings_growth 2 "earnings_growth" earnTier).1,
        max_score := (fieldContribution c.revenue_growth 3 "revenue_growth" revTier).2.1 +
                     (fieldContribution c.earnings_growth 2 "earnings_growth" earnTier).2.1,
        reasoning := (fieldContribution c.revenue_growth 3 "revenue_growth" revTier).2.2 ++
                     (fieldContribution c.earnings_growth 2 "earnings_growth" earnTier).2.2 } := by
  rcases c with ⟨roe, dte, rg, eg⟩
  rcases rg with _ | x <;> rcases eg with _ | y <;>
    simp only [perform_advanced_analysis, fieldContribution, revTier, earnTier] <;>
    (try split_ifs) <;> simp_all

theorem fieldContribution_bounds (v : Option ℚ) (weight : ℤ) (key : String)
    (tier : ℚ → ℤ × String)
    (ht : ∀ x : ℚ, 0 ≤ (tier x).1 ∧ (tier x).1 ≤ weight) :
    0 ≤ (fieldContribution v weight key tier).1 ∧
      (fieldContribution v weight key tier).1 ≤ (fieldContribution v weight key tier).2.1 := by
  rcases v with _ | x
  · simp [fieldContribution]
  · by_cases hx : x = 0 <;> simp [fieldContribution, hx] <;> exact ht x

theorem roeTier_bounds (x : ℚ) : 0 ≤ (roeTier x).1 ∧ (roeTier x).1 ≤ 3 := by
  simp only [roeTier]; split_ifs <;> norm_num

theorem dteTier_bounds (x : ℚ) : 0 ≤ (dteTier x).1 ∧ (dteTier x).1 ≤ 2 := by
  simp only [dteTier]; split_ifs <;> norm_num

theorem revTier_bounds (x : ℚ) : 0 ≤ (revTier x).1 ∧ (revTier x).1 ≤ 3 := by
  simp only [revTier]; split_ifs <;> norm_num

theorem earnTier_bounds (x : ℚ) : 0 ≤ (earnTier x).1 ∧ (earnTier x).1 ≤ 2 := by
  simp only [earnTier]; split_ifs <;> norm_num

theorem foldl_append_filter {a : Type} (p : a → Bool) (l : List a) (acc : List a) :
    l.foldl (fun acc x => if p x then acc ++ [x] else acc) acc = acc ++ l.filter p := by
  induction l generalizing acc with
  | nil => simp
  | cons x xs ih => cases hp : p x <;> simp [hp, ih]

theorem loop_body_eq (available_providers : List String) :
    (fun (acc : List ModelDescriptor) model =>
      match providerToApiKey model.provider with
      | some api_key_name =>
        if available_providers.contains api_key_name then acc ++ [model] else acc
      | none => acc) =
    (fun acc model =>
      if credentialSelected model available_providers then acc ++ [model] else acc) := by
  funext acc model
  rcases h : providerToApiKey model.provider with _ | k <;> simp [credentialSelected, h]

theorem filter_loop_eq (all_models : List ModelDescriptor)
    (available_providers : List String) (acc : List ModelDescriptor) :
    all_models.foldl
      (fun acc model =>
        match providerToApiKey model.provider with
        | some api_key_name =>
          if available_providers.contains api_key_name then acc ++ [model] else acc
        | none => acc)
      acc =
    acc ++ all_models.filter (fun m => credentialSelected m available_providers) := by
  rw [loop_body_eq]
  exact foldl_append_filter _ all_models acc

/-- C1: on any comprehensive score in [0,100], `generate_signal` classifies
by the fixed thresholds: at least 80 and in [60,80) give bullish with
confidence equal to the score, [40,60) gives neutral with fixed confidence
50, and below 40 gives bearish with confidence 100 minus the score; the four
tiers are mutually exclusive and exhaustive, so exactly one branch fires. -/
theorem generate_signal_tiers (s : ℚ) (mc : Option ℚ) (h0 : 0 ≤ s) (h1 : s ≤ 100) :
    (80 ≤ s →
      (generate_signal s mc).1 = Signal.bullish ∧ (generate_signal s mc).2.1 = s) ∧
    (60 ≤ s ∧ s < 80 →
      (generate_signal s mc).1 = Signal.bullish ∧ (generate_signal s mc).2.1 = s) ∧
    (40 ≤ s ∧ s < 60 →
      (generate_signal s mc).1 = Signal.neutral ∧ (generate_signal s mc).2.1 = 50) ∧
    (s < 40 →
      (generate_signal s mc).1 = Signal.bearish ∧ (generate_signal s mc).2.1 = 100 - s) ∧
    ((80 ≤ s ∧ ¬(60 ≤ s ∧ s < 80) ∧ ¬(40 ≤ s ∧ s < 60) ∧ ¬(s < 40)) ∨
     (¬(80 ≤ s) ∧ (60 ≤ s ∧ s < 80) ∧ ¬(40 ≤ s ∧ s < 60) ∧ ¬(s < 40)) ∨
     (¬(80 ≤ s) ∧ ¬(60 ≤ s ∧ s < 80) ∧ (40 ≤ s ∧ s < 60) ∧ ¬(s < 40)) ∨
     (¬(80 ≤ s) ∧ ¬(60 ≤ s ∧ s < 80) ∧ ¬(40 ≤ s ∧ s < 60) ∧ s < 40)) := by
  unfold generate_signal
  split_ifs with hA hB hC
  · refine ⟨fun _ => ⟨rfl, rfl⟩, fun _ => ⟨rfl, rfl⟩,
      fun hx => absurd hx.2 (by linarith), fun hx => absurd hx (by linarith), ?_⟩
    exact Or.inl ⟨by linarith, fun hx => by linarith [hx.2],
      fun hx => by linarith [hx.2], by linarith⟩
  · push_neg at hA
    refine ⟨fun hx => absurd hx (by linarith), fun _ => ⟨rfl, rfl⟩,
      fun hx => absurd hx.2 (by linarith), fun hx => absurd hx (by linarith), ?_⟩
    exact Or.inr (Or.inl ⟨by linarith, ⟨by linarith, hA⟩,
      fun hx => by linarith [hx.2], by linarith⟩)
  · push_neg at hA hB
    refine ⟨fun hx => absurd hx (by linarith), fun hx => absurd hx.1 (by linarith),
      fun _ => ⟨rfl, rfl⟩, fun hx => absurd hx (by linarith), ?_⟩
    exact Or.inr (Or.inr (Or.inl ⟨by linarith, fun hx => by linarith [hx.1],
      ⟨by linarith, hB⟩, by linarith⟩))
  · push_neg at hA hB hC
    refine ⟨fun hx => absurd hx (by linarith), fun hx => absurd hx.1 (by linarith),
      fun hx => absurd hx.1 (by linarith), fun _ => ⟨rfl, rfl⟩, ?_⟩
    exact Or.inr (Or.inr (Or.inr ⟨by linarith, fun hx => by linarith [hx.1],
      fun hx => by linarith [hx.1], by linarith⟩))

/-- C1 witness: at the concrete score 85 the classifier is bullish with
confidence 85. -/
theorem generate_signal_tiers_witness :
    (generate_signal 85 none).1 = Signal.bullish ∧ (generate_signal 85 none).2.1 = 85 :=
  (generate_signal_tiers 85 none (by norm_num) (by norm_num)).1 (by norm_num)

/-- C9: `generate_signal` returns the same signal, confidence and reasoning
for any two market_cap values — market_cap is carried but never read. -/
theorem generate_signal_ignores_market_cap (s : ℚ) (mc1 mc2 : Option ℚ) :
    generate_signal s mc1 = generate_signal s mc2 := rfl

/-- C5: `calculate_comprehensive_score` returns exactly 0 when the combined
maximum is 0, and otherwise the percentage of combined achieved points over
combined achievable points; it is a pure function of the two breakdowns. -/
theorem calculate_comprehensive_score_spec (core adv : ScoreBreakdown) :
    (core.max_score + adv.max_score = 0 →
      calculate_comprehensive_score core adv = 0) ∧
    (core.max_score + adv.max_score ≠ 0 →
      calculate_comprehensive_score core adv =
        100 * ((core.score + adv.score : ℤ) : ℚ) /
          ((core.max_score + adv.max_score : ℤ) : ℚ)) := by
  constructor
  · intro h
    simp [calculate_comprehensive_score, h]
  · intro h
    simp only [calculate_comprehensive_score, if_neg h]
    ring

/-- C5 witness: a zero-maximum pair yields 0, and a 3-of-5 pair yields 60. -/
theorem calculate_comprehensive_score_spec_witness :
    calculate_comprehensive_score (ScoreBreakdown.mk 0 0 []) (ScoreBreakdown.mk 0 0 []) = 0 ∧
    calculate_comprehensive_score (ScoreBreakdown.mk 3 5 []) (ScoreBreakdown.mk 0 0 []) = 60 := by
  constructor
  · exact (calculate_comprehensive_score_spec (ScoreBreakdown.mk 0 0 [])
      (ScoreBreakdown.mk 0 0 [])).1 (by norm_num)
  · rw [(calculate_comprehensive_score_spec (ScoreBreakdown.mk 3 5 [])
      (ScoreBreakdown.mk 0 0 [])).2 (by norm_num)]
    norm_num

/-- C6: with fewer than two snapshots, `perform_advanced_analysis` returns
the empty breakdown. -/
theorem perform_advanced_analysis_needs_two (metrics : List MetricsSnapshot)
    (li : List LineItemSet) (h : metrics.length < 2) :
    perform_advanced_analysis metrics li =
      { score := 0, max_score := 0, reasoning := [] } := by
  rcases metrics with _ | ⟨a, _ | ⟨b, rest⟩⟩
  · rfl
  · rfl
  · simp only [List.length_cons] at h
    omega

/-- C6 witness: the empty snapshot list yields the empty breakdown. -/
theorem perform_advanced_analysis_needs_two_witness :
    perform_advanced_analysis [] [] =
      { score := 0, max_score := 0, reasoning := [] } :=
  perform_advanced_analysis_needs_two [] [] (by norm_num)

/-- C2: when the LLM call raises, or when the returned text fails to parse as
JSON, `validate_with_llm` returns the deterministic signals unchanged; the
failure is absorbed, never propagated. -/
theorem validate_with_llm_fallback (signals : Json) (t : String)
    (hp : json_loads t = none) :
    validate_with_llm signals CallOutcome.raised = signals ∧
    validate_with_llm signals (CallOutcome.returned t) = signals := by
  constructor
  · rfl
  · simp [validate_with_llm, hp]

/-- C2 witness: fallback at a concrete signal map, for a raised call and for
a non-JSON response text. -/
theorem validate_with_llm_fallback_witness :
    validate_with_llm exampleSignals CallOutcome.raised = exampleSignals ∧
    validate_with_llm exampleSignals
        (CallOutcome.returned "definitely not json") = exampleSignals :=
  validate_with_llm_fallback exampleSignals "definitely not json" rfl

/-- C4 counterexample: a response that parses as JSON but lacks the expected
per-ticker shape is not treated as a failure — `validate_with_llm` returns
the malformed parsed object instead of falling back to the deterministic
signals. -/
theorem validate_with_llm_shape_not_checked :
    json_loads "\x7b\"AAPL\": \x7b\"foo\": 1\x7d\x7d" =
      some (Json.obj [("AAPL", Json.obj [("foo", Json.num 1)])]) ∧
    hasExpectedShape (Json.obj [("AAPL", Json.obj [("foo", Json.num 1)])]) = false ∧
    validate_with_llm exampleSignals
        (CallOutcome.returned "\x7b\"AAPL\": \x7b\"foo\": 1\x7d\x7d") =
      Json.obj [("AAPL", Json.obj [("foo", Json.num 1)])] ∧
    Json.obj [("AAPL", Json.obj [("foo", Json.num 1)])] ≠ exampleSignals := by
  refine ⟨rfl, rfl, rfl, ?_⟩
  intro h
  have h1 : hasExpectedShape (Json.obj [("AAPL", Json.obj [("foo", Json.num 1)])]) = false := rfl
  have h2 : hasExpectedShape exampleSignals = true := rfl
  rw [h, h2] at h1
  cases h1

/-- C4 amended: any successfully parsed JSON response, of the expected shape
or not, wholesale replaces the deterministic signals; fallback happens only
when the call raises or the text fails to parse as JSON. -/
theorem validate_with_llm_parsed_replaces (signals : Json) (t : String) (j : Json)
    (h : json_loads t = some j) :
    validate_with_llm signals (CallOutcome.returned t) = j := by
  simp [validate_with_llm, h]

/-- C4 amended witness: a well-formed review response replaces the original
signal map. -/
theorem validate_with_llm_parsed_replaces_witness :
    validate_with_llm exampleSignals
        (CallOutcome.returned
          "\x7b\"TSLA\": \x7b\"signal\": \"neutral\", \"confidence\": 50, \"reasoning\": \"mixed\"\x7d\x7d") =
      Json.obj [("TSLA", Json.obj [("signal", Json.str "neutral"),
        ("confidence", Json.num 50), ("reasoning", Json.str "mixed")])] :=
  validate_with_llm_parsed_replaces exampleSignals _ _ rfl

/-- C3: both scorers decompose into independent per-field contributions in
which a falsy field (absent or zero) adds nothing to score or maximum and
writes no reasoning entry, while a truthy field always raises the maximum by
its full weight and writes exactly one reasoning entry whatever the tier; in
particular the snapshot with absent ROE and debt-to-equity 0.2 reaches a core
maximum of 2, not 5. -/
theorem rubric_skips_falsy_fields (s c p : MetricsSnapshot)
    (rest rest2 : List MetricsSnapshot) (li li2 : List LineItemSet) :
    (analyze_core_metrics (s :: rest) li =
      { score := (fieldContribution s.return_on_equity 3 "roe" roeTier).1 +
                 (fieldContribution s.debt_to_equity 2 "debt" dteTier).1,
        max_score := (fieldContribution s.return_on_equity 3 "roe" roeTier).2.1 +
                     (fieldContribution s.debt_to_equity 2 "debt" dteTier).2.1,
        reasoning := (fieldContribution s.return_on_equity 3 "roe" roeTier).2.2 ++
                     (fieldContribution s.debt_to_equity 2 "debt" dteTier).2.2 }) ∧
    (perform_advanced_analysis (c :: p :: rest2) li2 =
      { score := (fieldContribution c.revenue_growth 3 "revenue_growth" revTier).1 +
                 (fieldContribution c.earnings_growth 2 "earnings_growth" earnTier).1,
        max_score := (fieldContribution c.revenue_growth 3 "revenue_growth" revTier).2.1 +
                     (fieldContribution c.earnings_growth 2 "earnings_growth" earnTier).2.1,
        reasoning := (fieldContribution c.revenue_growth 3 "revenue_growth" revTier).2.2 ++
                     (fieldContribution c.earnings_growth 2 "earnings_growth" earnTier).2.2 }) ∧
    (∀ (w : ℤ) (k : String) (tier : ℚ → ℤ × String),
      fieldContribution none w k tier = (0, 0, [])) ∧
    (∀ (w : ℤ) (k : String) (tier : ℚ → ℤ × String),
      fieldContribution (some 0) w k tier = (0, 0, [])) ∧
    (∀ (x : ℚ) (w : ℤ) (k : String) (tier : ℚ → ℤ × String),
      (fieldContribution (some x) w k tier).2.1 = if x = 0 then 0 else w) ∧
    (∀ (x : ℚ) (w : ℤ) (k : String) (tier : ℚ → ℤ × String),
      (fieldContribution (some x) w k tier).2.2.length = if x = 0 then 0 else 1) ∧
    (analyze_core_metrics
      [MetricsSnapshot.mk none (some 0.2) none none] []).max_score = 2 := by
  refine ⟨analyze_core_metrics_decomp s rest li,
    perform_advanced_analysis_decomp c p rest2 li2,
    fun w k tier => rfl,
    fun w k tier => by simp [fieldContribution],
    fun x w k tier => ?_,
    fun x w k tier => ?_,
    by rw [analyze_core_metrics_decomp]
       norm_num [fieldContribution, dteTier]⟩
  · by_cases hx : x = 0 <;> simp [fieldContribution, hx]
  · by_cases hx : x = 0 <;> simp [fieldContribution, hx]

/-- C8: every breakdown produced by the core or the advanced scorer satisfies
the invariant that the achieved score is between 0 and the maximum. -/
theorem score_breakdown_invariant (metrics : List MetricsSnapshot)
    (li : List LineItemSet) :
    (0 ≤ (analyze_core_metrics metrics li).score ∧
      (analyze_core_metrics metrics li).score ≤
        (analyze_core_metrics metrics li).max_score) ∧
    (0 ≤ (perform_advanced_analysis metrics li).score ∧
      (perform_advanced_analysis metrics li).score ≤
        (perform_advanced_analysis metrics li).max_score) := by
  constructor
  · rcases metrics with _ | ⟨s, rest⟩
    · simp [analyze_core_metrics]
    · rw [analyze_core_metrics_decomp]
      have h1 := fieldContribution_bounds s.return_on_equity 3 "roe" roeTier roeTier_bounds
      have h2 := fieldContribution_bounds s.debt_to_equity 2 "debt" dteTier dteTier_bounds
      dsimp only
      exact ⟨by linarith [h1.1, h2.1], by linarith [h1.2, h2.2]⟩
  · rcases metrics with _ | ⟨c, _ | ⟨p, rest⟩⟩
    · simp [perform_advanced_analysis]
    · simp [perform_advanced_analysis]
    · rw [perform_advanced_analysis_decomp]
      have h1 := fieldContribution_bounds c.revenue_growth 3 "revenue_growth" revTier revTier_bounds
      have h2 := fieldContribution_bounds c.earnings_growth 2 "earnings_growth" earnTier earnTier_bounds
      dsimp only
      exact ⟨by linarith [h1.1, h2.1], by linarith [h1.2, h2.2]⟩

/-- C10: with at least two snapshots, the advanced breakdown is a function of
the current snapshot's revenue growth and earnings growth alone — the
previous snapshot's contents, the rest of the sequence and the line items are
never read. -/
theorem advanced_depends_only_on_current_growth (c1 c2 p1 p2 : MetricsSnapshot)
    (r1 r2 : List MetricsSnapshot) (li1 li2 : List LineItemSet)
    (hr : c1.revenue_growth = c2.revenue_growth)
    (he : c1.earnings_growth = c2.earnings_growth) :
    perform_advanced_analysis (c1 :: p1 :: r1) li1 =
      perform_advanced_analysis (c2 :: p2 :: r2) li2 := by
  rw [perform_advanced_analysis_decomp, perform_advanced_analysis_decomp, hr, he]

/-- C10 witness: two sequences agreeing only on the current growth fields
(with entirely different previous snapshots) produce the same breakdown. -/
theorem advanced_depends_only_on_current_growth_witness :
    perform_advanced_analysis
        [MetricsSnapshot.mk none none (some 0.25) (some 0.3),
         MetricsSnapshot.mk (some 1) (some 1) (some 1) (some 1)] [] =
      perform_advanced_analysis
        [MetricsSnapshot.mk (some 0.18) (some 0.25) (some 0.25) (some 0.3),
         MetricsSnapshot.mk none none none none] [LineItemSet.mk "revenue" 5] :=
  advanced_depends_only_on_current_growth
    (MetricsSnapshot.mk none none (some 0.25) (some 0.3))
    (MetricsSnapshot.mk (some 0.18) (some 0.25) (some 0.25) (some 0.3))
    (MetricsSnapshot.mk (some 1) (some 1) (some 1) (some 1))
    (MetricsSnapshot.mk none none none none)
    [] [] [] [LineItemSet.mk "revenue" 5] rfl rfl

/-- C7: the route returns exactly the catalog entries whose provider maps via
the fixed table to a configured credential, in catalog order, followed by the
probed Ollama models (which bypass the credential check); a provider without
a table entry is never selected by the credential filter. -/
theorem get_language_models_spec (all_models ollama_models : List ModelDescriptor)
    (available_providers : List String) :
    get_language_models all_models available_providers ollama_models =
      all_models.filter (fun m => credentialSelected m available_providers) ++
        ollama_models ∧
    (∀ m : ModelDescriptor, providerToApiKey m.provider = none →
      credentialSelected m available_providers = false) := by
  constructor
  · unfold get_language_models
    rw [filter_loop_eq]
    simp
  · intro m hm
    simp [credentialSelected, hm]

/-- C7 witness: with only an OpenAI credential, an OpenAI model is kept, an
unknown provider is dropped, and the probed Ollama model is appended. -/
theorem get_language_models_spec_witness :
    get_language_models
        [ModelDescriptor.mk "OpenAI" "GPT 4o" "gpt-4o",
         ModelDescriptor.mk "Frobnicator" "F1" "f1"]
        ["OPENAI_API_KEY"]
        [ModelDescriptor.mk "Ollama" "Llama3" "llama3"] =
      [ModelDescriptor.mk "OpenAI" "GPT 4o" "gpt-4o",
       ModelDescriptor.mk "Ollama" "Llama3" "llama3"] ∧
    credentialSelected (ModelDescriptor.mk "Frobnicator" "F1" "f1")
      ["OPENAI_API_KEY"] = false := by
  have h := get_language_models_spec
    [ModelDescriptor.mk "OpenAI" "GPT 4o" "gpt-4o",
     ModelDescriptor.mk "Frobnicator" "F1" "f1"]
    [ModelDescriptor.mk "Ollama" "Llama3" "llama3"]
    ["OPENAI_API_KEY"]
  refine ⟨?_, h.2 (ModelDescriptor.mk "Frobnicator" "F1" "f1") rfl⟩
  rw [h.1]
  rfl
